import Mathlib

/-
Verification of the adaptive relevance engine of the contract-inbox
application.  The TypeScript sources are embedded shallowly:

* JavaScript number-typed score and threshold fields are embedded as ℤ.
  Every score the system produces is an integer: similarityToScore in the
  vector store rounds cosine similarity into an integer in [0,100], and the
  distinguished all-contracts view assigns the constant 100.  On integers
  JavaScript's Math.round is the identity, and the embedding notes each
  place where the source applies it.
* The one genuine division in the engine (the hide rate in
  calculateDynamicThreshold) is embedded in ℚ.  For the operand ranges that
  occur (numerators and denominators at most 20) IEEE double division and
  comparison against 0.6 agree exactly with the rational comparison, and in
  ℚ division by zero yields 0, matching the source where a 0/0 hide rate is
  NaN and every comparison against NaN is false.
* Calls to new Date().toISOString() are embedded as an explicit clock
  argument `now : String`.
* The IndexedDB object stores are embedded as association lists keyed by
  the record id, and the fallible ledger read is an `Except` argument.
* JavaScript template-literal reason strings carry no logic; their data
  content is embedded as a small inductive type.
-/

/-- Action recorded in a feedback event (types.ts, UserFeedback.action). -/
inductive FeedbackAction
  | saved
  | hidden
  | viewed
  | ignored
deriving DecidableEq

/-- Embedding of the UserFeedback record (types.ts). -/
structure UserFeedback where
  id : String
  inboxId : String
  contractId : String
  action : FeedbackAction
  matchScore : ℤ
  timestamp : String
  hideReason : Option String := none
  viewDuration : Option ℤ := none
deriving DecidableEq

/-- Data content of the human-readable reason string built by
calculateDynamicThreshold (learning.ts): the template literals
interpolate the saved count, respectively the rounded hide percentage. -/
inductive ThresholdReason
  | expanded (savedCount : ℕ)
  | narrowed (hidePercent : ℤ)
deriving DecidableEq

/-- Return value of calculateDynamicThreshold (learning.ts). -/
structure DynamicThresholdResult where
  threshold : ℤ
  reason : Option ThresholdReason := none
deriving DecidableEq

/-- Embedding of calculateDynamicThreshold (learning.ts, lines 193-235).
The two sequential conditional assignments to newThreshold / reason are
embedded as two let-bindings; slice(-20) is `drop (length - 20)`. -/
def calculateDynamicThreshold (feedbackEvents : List UserFeedback)
    (currentThreshold : ℤ := 50) : DynamicThresholdResult :=
  if feedbackEvents.length < 10 then
    { threshold := currentThreshold }
  else
    let recentFeedback := feedbackEvents.drop (feedbackEvents.length - 20)
    let recentSaves := recentFeedback.filter
      (fun f => decide (f.action = FeedbackAction.saved))
    let recentHides := recentFeedback.filter
      (fun f => decide (f.action = FeedbackAction.hidden))
    let lowScoreSaves := recentSaves.filter
      (fun f => decide (f.matchScore < currentThreshold + 10 ∧ f.matchScore > 0))
    let newThreshold1 : ℤ :=
      if 3 ≤ lowScoreSaves.length ∧ 5 ≤ recentSaves.length then
        max 30 (currentThreshold - 10)
      else currentThreshold
    let reason1 : Option ThresholdReason :=
      if 3 ≤ lowScoreSaves.length ∧ 5 ≤ recentSaves.length then
        some (ThresholdReason.expanded lowScoreSaves.length)
      else none
    let totalActions := recentSaves.length + recentHides.length
    let hideRate : ℚ := (recentHides.length : ℚ) / (totalActions : ℚ)
    let newThreshold2 : ℤ :=
      if hideRate > 6/10 ∧ 10 ≤ totalActions then
        min 70 (currentThreshold + 10)
      else newThreshold1
    let reason2 : Option ThresholdReason :=
      if hideRate > 6/10 ∧ 10 ≤ totalActions then
        some (ThresholdReason.narrowed (round (hideRate * 100)))
      else reason1
    { threshold := max 30 (min 70 newThreshold2), reason := reason2 }

/-- Modelled from the claim wording for C6: the reference expand/narrow rule
set over the most recent 20 events.  Expand (at least 3 recent saves with
score < cutoff+10 and score > 0, and at least 5 recent saves) lowers the
cutoff by 10 floored at 30; narrow (hide rate among recent save+hide
actions above 60 percent, at least 10 such actions) raises it by 10 capped
at 70; when both fire, the narrow result overwrites the expand result. -/
def refThreshold (events : List UserFeedback) (cutoff : ℤ) : ℤ :=
  let recentFeedback := events.drop (events.length - 20)
  let recentSaves := recentFeedback.filter
    (fun f => decide (f.action = FeedbackAction.saved))
  let recentHides := recentFeedback.filter
    (fun f => decide (f.action = FeedbackAction.hidden))
  let lowScoreSaves := recentSaves.filter
    (fun f => decide (f.matchScore < cutoff + 10 ∧ f.matchScore > 0))
  let totalActions := recentSaves.length + recentHides.length
  let hideRate : ℚ := (recentHides.length : ℚ) / (totalActions : ℚ)
  if hideRate > 6/10 ∧ 10 ≤ totalActions then
    min 70 (cutoff + 10)
  else if 3 ≤ lowScoreSaves.length ∧ 5 ≤ recentSaves.length then
    max 30 (cutoff - 10)
  else cutoff

/-- Embedding of PromptRefinement (types.ts). -/
structure PromptRefinement where
  originalPrompt : String
  refinedPrompt : Option String := none
  hideReason : String
  matchScore : ℤ
  timestamp : String
deriving DecidableEq

/-- Embedding of the thresholdAdjustments bookkeeping record (types.ts). -/
structure ThresholdAdjustments where
  expandedCount : ℕ
  narrowedCount : ℕ
  lastAdjustment : String
deriving DecidableEq

/-- Embedding of InboxLearningMetrics (types.ts).  The two
`Record<string, number>` boost maps are embedded as association lists
keyed by the attribute value. -/
structure InboxLearningMetrics where
  inboxId : String
  minRelevanceScore : ℤ
  maxIrrelevanceScore : ℤ
  dynamicMinScore : ℤ
  thresholdAdjustments : ThresholdAdjustments
  promptRefinements : List PromptRefinement
  pendingPromptUpdate : Bool
  totalFeedback : ℕ
  savedContracts : ℕ
  hiddenContracts : ℕ
  viewedContracts : ℕ
  authorityBoosts : List (String × ℤ)
  classificationBoosts : List (String × ℤ)
  confidenceLevel : ℤ
  lastUpdated : String
deriving DecidableEq

/-- Embedding of analyzeFeedbackPatterns (feedback-storage.ts, lines
126-229), with the ledger contents and the clock reading passed
explicitly.  Math.min(...) / Math.max(...) over a non-empty score array
are folds; Math.round applied to the integer band edges is the identity
and is dropped; the confidence computation divides in ℚ and rounds, as
the source divides in floating point and rounds. -/
def analyzeFeedbackPatterns (inboxId : String) (feedback : List UserFeedback)
    (now : String) : InboxLearningMetrics :=
  if feedback.isEmpty then
    { inboxId := inboxId
      minRelevanceScore := 0
      maxIrrelevanceScore := 100
      dynamicMinScore := 30
      thresholdAdjustments :=
        { expandedCount := 0, narrowedCount := 0, lastAdjustment := now }
      promptRefinements := []
      pendingPromptUpdate := false
      totalFeedback := 0
      savedContracts := 0
      hiddenContracts := 0
      viewedContracts := 0
      authorityBoosts := []
      classificationBoosts := []
      confidenceLevel := 0
      lastUpdated := now }
  else
    let saved := feedback.filter (fun f => decide (f.action = FeedbackAction.saved))
    let hidden := feedback.filter (fun f => decide (f.action = FeedbackAction.hidden))
    let viewed := feedback.filter (fun f => decide (f.action = FeedbackAction.viewed))
    let savedScores := saved.map (fun f => f.matchScore)
    let hiddenScores := hidden.map (fun f => f.matchScore)
    let minRelevanceScore : ℤ :=
      match savedScores with
      | [] => 0
      | s :: rest => max 0 (rest.foldl min s - 10)
    let maxIrrelevanceScore : ℤ :=
      match hiddenScores with
      | [] => 100
      | s :: rest => min 100 (rest.foldl max s + 5)
    let confidenceLevel : ℚ := min 100 ((feedback.length : ℚ) / 20 * 100)
    let currentThreshold : ℤ := 50
    let controllerResult := calculateDynamicThreshold feedback currentThreshold
    let dynamicMinScore := controllerResult.threshold
    let thresholdAdjustments : ThresholdAdjustments :=
      { expandedCount := if dynamicMinScore < currentThreshold then 1 else 0
        narrowedCount := if dynamicMinScore > currentThreshold then 1 else 0
        lastAdjustment := now }
    { inboxId := inboxId
      minRelevanceScore := minRelevanceScore
      maxIrrelevanceScore := maxIrrelevanceScore
      dynamicMinScore := dynamicMinScore
      thresholdAdjustments := thresholdAdjustments
      promptRefinements := []
      pendingPromptUpdate := false
      totalFeedback := feedback.length
      savedContracts := saved.length
      hiddenContracts := hidden.length
      viewedContracts := viewed.length
      authorityBoosts := []
      classificationBoosts := []
      confidenceLevel := round confidenceLevel
      lastUpdated := now }

/-- Lowest score among the saved events of a ledger, as the spec words it
(none when there are no saves). -/
def lowestSavedScore (feedback : List UserFeedback) : Option ℤ :=
  ((feedback.filter (fun f => decide (f.action = FeedbackAction.saved))).map
    (fun f => f.matchScore)).min?

/-- Highest score among the hidden events of a ledger, as the spec words it
(none when there are no hides). -/
def highestHiddenScore (feedback : List UserFeedback) : Option ℤ :=
  ((feedback.filter (fun f => decide (f.action = FeedbackAction.hidden))).map
    (fun f => f.matchScore)).max?

/-- Projection of a learning policy onto every field other than the two
clock readings (lastUpdated and thresholdAdjustments.lastAdjustment). -/
def policyTimeFreePart (m : InboxLearningMetrics) :=
  (m.inboxId, m.minRelevanceScore, m.maxIrrelevanceScore, m.dynamicMinScore,
   m.thresholdAdjustments.expandedCount, m.thresholdAdjustments.narrowedCount,
   m.promptRefinements, m.pendingPromptUpdate, m.totalFeedback,
   m.savedContracts, m.hiddenContracts, m.viewedContracts,
   m.authorityBoosts, m.classificationBoosts, m.confidenceLevel)

/-- Per-inbox hiding metadata entry (types.ts, Contract.hiddenMetadata). -/
structure HiddenMeta where
  hiddenBy : Option String := none
  hiddenDate : String
  hiddenReason : Option String := none
deriving DecidableEq

/-- Embedding of the Contract record (types.ts).  hiddenMetadata is an
association list keyed by inbox id, optional as in the source. -/
structure Contract where
  id : String
  title : String
  description : String
  authority : String
  value : Option ℚ := none
  closeDate : String
  publishDate : String
  url : String
  buyerClassification : String
  embedding : Option (List ℚ) := none
  isNew : Bool
  isSaved : Bool
  isUnread : Bool
  hiddenInInboxes : List String
  hiddenMetadata : Option (List (String × HiddenMeta)) := none
  matchScore : Option ℤ := none
  snippet : Option String := none
  deadline : Option String := none
  explanation : Option String := none
deriving DecidableEq

/-- Embedding of SearchResult (types.ts). -/
structure SearchResult where
  contract : Contract
  matchScore : ℤ
  explanation : Option String := none
deriving DecidableEq

/-- Lookup of a boost map entry: `boosts[key] || 0` in the source.  A key
bound to 0 and an absent key both give 0, as in JavaScript. -/
def lookupBoost (m : List (String × ℤ)) (key : String) : ℤ :=
  ((m.find? (fun p => decide (p.1 = key))).map Prod.snd).getD 0

/-- Embedding of applyLearnedThresholds (learning.ts, lines 42-90): with
enough feedback and confidence, keep exactly the results whose score is
neither below minRelevanceScore nor above maxIrrelevanceScore. -/
def applyLearnedThresholds (results : List SearchResult)
    (metrics : Option InboxLearningMetrics) : List SearchResult :=
  match metrics with
  | none => results
  | some m =>
    if m.totalFeedback < 5 then results
    else if m.confidenceLevel < 30 then results
    else results.filter (fun r =>
      decide (¬ (r.matchScore < m.minRelevanceScore) ∧
              ¬ (m.maxIrrelevanceScore < r.matchScore)))

/-- Embedding of applyLearnedBoosts (learning.ts, lines 96-148): with
enough feedback and confidence, add the authority and classification
boosts (each only when non-zero, as in the source), clamp to [0,100];
Math.round on the integer sum is the identity and is dropped. -/
def applyLearnedBoosts (results : List SearchResult)
    (metrics : Option InboxLearningMetrics) : List SearchResult :=
  match metrics with
  | none => results
  | some m =>
    if m.totalFeedback < 10 then results
    else if m.confidenceLevel < 50 then results
    else results.map (fun r =>
      let adjusted0 := r.matchScore
      let authorityBoost := lookupBoost m.authorityBoosts r.contract.authority
      let adjusted1 := if authorityBoost ≠ 0 then adjusted0 + authorityBoost else adjusted0
      let classBoost := lookupBoost m.classificationBoosts r.contract.buyerClassification
      let adjusted2 := if classBoost ≠ 0 then adjusted1 + classBoost else adjusted1
      { r with matchScore := max 0 (min 100 adjusted2) })

/-- Embedding of the optional structured filters of an inbox (types.ts). -/
structure InboxFilters where
  valueMin : Option ℚ := none
  valueMax : Option ℚ := none
  buyerTypes : Option (List String) := none
  locations : Option (List String) := none
deriving DecidableEq

/-- Embedding of the Inbox record (types.ts).  The optional boolean
isAllContractsInbox is embedded as Bool, matching its truthiness use
(undefined behaves as false at every use site). -/
structure Inbox where
  id : String
  name : String
  prompt : String
  embedding : Option (List ℚ) := none
  createdAt : String
  updatedAt : String
  unreadCount : ℕ
  isAllContractsInbox : Bool := false
  filters : Option InboxFilters := none
  learningMetrics : Option InboxLearningMetrics := none
deriving DecidableEq

/-- Keyed get on the inbox store (inbox-storage.ts, getInboxById). -/
def getInboxById (store : List Inbox) (id : String) : Option Inbox :=
  store.find? (fun i => decide (i.id = id))

/-- IndexedDB put on the inbox store: replace the record with the same key,
or append the record when the key is new. -/
def putInbox (store : List Inbox) (inbox : Inbox) : List Inbox :=
  if store.any (fun i => decide (i.id = inbox.id)) then
    store.map (fun i => if i.id = inbox.id then inbox else i)
  else store ++ [inbox]

/-- Embedding of updateInbox (inbox-storage.ts, lines 434-461) for the
learningMetrics update performed by updateInboxLearning: when the inbox
exists, merge the new metrics and refresh updatedAt; when it does not,
return the store unchanged (the source returns undefined without a
write). -/
def updateInboxMetrics (store : List Inbox) (id : String)
    (metrics : InboxLearningMetrics) (now : String) : List Inbox :=
  match getInboxById store id with
  | none => store
  | some inbox =>
    putInbox store { inbox with learningMetrics := some metrics, updatedAt := now }

/-- Embedding of getFeedbackForInbox (feedback-storage.ts, lines 93-105):
the IndexedDB read either yields the ledger or fails; on failure the
source catches the error and returns the empty list. -/
def getFeedbackForInbox (readResult : Except String (List UserFeedback)) :
    List UserFeedback :=
  match readResult with
  | Except.ok ledger => ledger
  | Except.error _ => []

/-- The Pattern Analyzer as called over the fallible ledger read: the read
is absorbed by getFeedbackForInbox, so the analyzer itself never
raises. -/
def analyzeFeedbackPatternsRun (inboxId : String)
    (readResult : Except String (List UserFeedback)) (now : String) :
    Except String InboxLearningMetrics :=
  Except.ok (analyzeFeedbackPatterns inboxId (getFeedbackForInbox readResult) now)

/-- Embedding of updateInboxLearning (learning.ts, lines 12-36): analyze
the feedback, then persist the metrics onto the inbox; when the analysis
raises, the error is rethrown and no write happens. -/
def updateInboxLearning (store : List Inbox) (inboxId : String)
    (readResult : Except String (List UserFeedback)) (now : String) :
    Except String (List Inbox) :=
  match analyzeFeedbackPatternsRun inboxId readResult now with
  | Except.error e => Except.error e
  | Except.ok metrics => Except.ok (updateInboxMetrics store inboxId metrics now)

/-- Embedding of handleGlobalThresholdChange (page.tsx, lines 359-412):
for an active inbox that is not the all-contracts inbox and has a
non-empty prompt, persist the user-chosen threshold into
learningMetrics.dynamicMinScore, defaulting every other field exactly as
the source spreads it. -/
def handleGlobalThresholdChange (store : List Inbox) (activeId : String)
    (newThreshold : ℤ) (now : String) : List Inbox :=
  match getInboxById store activeId with
  | none => store
  | some inbox =>
    if inbox.isAllContractsInbox = false ∧ inbox.prompt ≠ "" then
      let m0 := inbox.learningMetrics
      let metrics : InboxLearningMetrics :=
        { inboxId := inbox.id
          minRelevanceScore := (m0.map (fun m => m.minRelevanceScore)).getD 0
          maxIrrelevanceScore := (m0.map (fun m => m.maxIrrelevanceScore)).getD 100
          dynamicMinScore := newThreshold
          thresholdAdjustments :=
            { expandedCount :=
                (m0.map (fun m => m.thresholdAdjustments.expandedCount)).getD 0
              narrowedCount :=
                (m0.map (fun m => m.thresholdAdjustments.narrowedCount)).getD 0
              lastAdjustment := now }
          promptRefinements := (m0.map (fun m => m.promptRefinements)).getD []
          pendingPromptUpdate := (m0.map (fun m => m.pendingPromptUpdate)).getD false
          totalFeedback := (m0.map (fun m => m.totalFeedback)).getD 0
          savedContracts := (m0.map (fun m => m.savedContracts)).getD 0
          hiddenContracts := (m0.map (fun m => m.hiddenContracts)).getD 0
          viewedContracts := (m0.map (fun m => m.viewedContracts)).getD 0
          authorityBoosts := (m0.map (fun m => m.authorityBoosts)).getD []
          classificationBoosts := (m0.map (fun m => m.classificationBoosts)).getD []
          confidenceLevel := (m0.map (fun m => m.confidenceLevel)).getD 0
          lastUpdated := now }
      putInbox store { inbox with learningMetrics := some metrics, updatedAt := now }
    else store

/-- The live cutoff persisted on an inbox, when the inbox and its cached
policy exist. -/
def liveCutoff (store : List Inbox) (id : String) : Option ℤ :=
  (getInboxById store id).bind
    (fun i => i.learningMetrics.map (fun m => m.dynamicMinScore))

/-- The live cutoff after a fallible store update (none when the update
raised). -/
def liveCutoffE (result : Except String (List Inbox)) (id : String) : Option ℤ :=
  match result with
  | Except.error _ => none
  | Except.ok store => liveCutoff store id

/-- The cached policy after a fallible store update (none when the update
raised or the inbox is absent). -/
def storedPolicyE (result : Except String (List Inbox)) (id : String) :
    Option (Option InboxLearningMetrics) :=
  match result with
  | Except.error _ => none
  | Except.ok store => (getInboxById store id).map (fun i => i.learningMetrics)

/-- Keyed get on the contract store (contract-storage.ts, getContractById). -/
def getContractById (store : List Contract) (id : String) : Option Contract :=
  store.find? (fun c => decide (c.id = id))

/-- IndexedDB put on the contract store: replace the record with the same
key, or append the record when the key is new. -/
def putContract (store : List Contract) (c : Contract) : List Contract :=
  if store.any (fun x => decide (x.id = c.id)) then
    store.map (fun x => if x.id = c.id then c else x)
  else store ++ [c]

/-- JavaScript object key assignment `m[key] = v` on the hiddenMetadata
map: update the entry in place when the key exists, append it otherwise
(string keys keep insertion order). -/
def setMeta (m : List (String × HiddenMeta)) (key : String) (v : HiddenMeta) :
    List (String × HiddenMeta) :=
  if m.any (fun p => decide (p.1 = key)) then
    m.map (fun p => if p.1 = key then (key, v) else p)
  else m ++ [(key, v)]

/-- Embedding of markContractAsHidden (contract-storage.ts, lines 226-256):
add the inbox to hiddenInInboxes when absent, record the hide metadata for
that inbox, and merge the two fields back through updateContract. -/
def markContractAsHidden (store : List Contract) (id : String) (inboxId : String)
    (reason : Option String) (now : String) : List Contract :=
  match getContractById store id with
  | none => store
  | some contract =>
    let hiddenInInboxes :=
      if inboxId ∈ contract.hiddenInInboxes then contract.hiddenInInboxes
      else contract.hiddenInInboxes ++ [inboxId]
    let hiddenMetadata :=
      setMeta (contract.hiddenMetadata.getD []) inboxId
        { hiddenBy := none, hiddenDate := now, hiddenReason := reason }
    putContract store
      { contract with
          hiddenInInboxes := hiddenInInboxes
          hiddenMetadata := some hiddenMetadata }

/-- The hide metadata a contract records for a given inbox
(`contract.hiddenMetadata?.[inboxId]` in the source). -/
def hiddenMetaFor (c : Contract) (inboxId : String) : Option HiddenMeta :=
  ((c.hiddenMetadata.getD []).find? (fun p => decide (p.1 = inboxId))).map Prod.snd

/-- Frame relation used for the hide operation: every field of the contract
other than the hidden state for the hiding inbox agrees, and the hidden
state for the other inbox Y agrees. -/
def agreesOffInbox (Y : String) (c c' : Contract) : Prop :=
  c'.id = c.id ∧ c'.title = c.title ∧ c'.description = c.description ∧
  c'.authority = c.authority ∧ c'.value = c.value ∧
  c'.closeDate = c.closeDate ∧ c'.publishDate = c.publishDate ∧
  c'.url = c.url ∧ c'.buyerClassification = c.buyerClassification ∧
  c'.embedding = c.embedding ∧ c'.isNew = c.isNew ∧ c'.isSaved = c.isSaved ∧
  c'.isUnread = c.isUnread ∧ c'.matchScore = c.matchScore ∧
  c'.snippet = c.snippet ∧ c'.deadline = c.deadline ∧
  c'.explanation = c.explanation ∧
  (Y ∈ c'.hiddenInInboxes ↔ Y ∈ c.hiddenInInboxes) ∧
  hiddenMetaFor c' Y = hiddenMetaFor c Y

/-- Combined application state for the feedback pipeline: the contract
store, the inbox store, and the append-only feedback ledger. -/
structure AppState where
  contracts : List Contract
  inboxes : List Inbox
  feedback : List UserFeedback
deriving DecidableEq

/-- Embedding of the hide pipeline triggered by handleHideContract
(page.tsx) through hideContract (useContractStorage) when the active inbox
provides a context: markContractAsHidden, then recordFeedback (append the
hidden event to the ledger), then updateInboxLearning for that inbox,
which re-reads the ledger for the inbox, analyzes it, and persists the
resulting policy.  The generated feedback id and the clock reading are
explicit arguments. -/
def hideContractOp (s : AppState) (contractId : String) (inboxId : String)
    (matchScore : ℤ) (reason : Option String) (fbId : String) (now : String) :
    AppState :=
  let contracts := markContractAsHidden s.contracts contractId inboxId reason now
  let event : UserFeedback :=
    { id := fbId, inboxId := inboxId, contractId := contractId
      action := FeedbackAction.hidden, matchScore := matchScore
      timestamp := now, hideReason := reason }
  let feedback := s.feedback ++ [event]
  let ledger := feedback.filter (fun f => decide (f.inboxId = inboxId))
  let metrics := analyzeFeedbackPatterns inboxId ledger now
  let inboxes := updateInboxMetrics s.inboxes inboxId metrics now
  { contracts := contracts, inboxes := inboxes, feedback := feedback }

/-- Concrete feedback event used by the test fixtures. -/
def mkFeedback (inboxId : String) (action : FeedbackAction) (score : ℤ) :
    UserFeedback :=
  { id := "fb", inboxId := inboxId, contractId := "c"
    action := action, matchScore := score, timestamp := "2024-01-01T00:00:00.000Z" }

/-- Concrete contract used by the test fixtures. -/
def contractA : Contract :=
  { id := "c-a", title := "Building maintenance framework"
    description := "Maintenance across facilities", authority := "Kent County Council"
    value := some 2500000, closeDate := "2024-03-01", publishDate := "2024-01-15"
    url := "https://example.org/c-a", buyerClassification := "Local"
    isNew := true, isSaved := false, isUnread := true, hiddenInInboxes := [] }

/-- Second concrete contract, already hidden in inbox "x" with metadata. -/
def contractB : Contract :=
  { id := "c-b", title := "Digital health records"
    description := "Health records system", authority := "NHS Surrey"
    value := some 850000, closeDate := "2024-04-01", publishDate := "2024-02-01"
    url := "https://example.org/c-b", buyerClassification := "Health"
    isNew := false, isSaved := true, isUnread := false
    hiddenInInboxes := ["y"]
    hiddenMetadata := some [("y", { hiddenDate := "2023-12-31T00:00:00.000Z" })] }

/-- Search result at score 20 over the fixture contract. -/
def resultAt (score : ℤ) : SearchResult :=
  { contract := contractA, matchScore := score }

/-- Ledger of five saved events at score 60. -/
def fbFiveSaves : List UserFeedback :=
  List.replicate 5 (mkFeedback "inbox-2" FeedbackAction.saved 60)

/-- Ledger of six saved events at score 60. -/
def fbSixSaves : List UserFeedback :=
  List.replicate 6 (mkFeedback "inbox-2" FeedbackAction.saved 60)

/-- Ledger of ten saved events at score 60. -/
def fbTenSaves : List UserFeedback :=
  List.replicate 10 (mkFeedback "inbox-2" FeedbackAction.saved 60)

/-- Ledger of one saved event at score 60. -/
def fbOneSave : List UserFeedback :=
  [mkFeedback "inbox-2" FeedbackAction.saved 60]

/-- Ledger with three saves at score 80 and nine hides at score 90: twelve
recent save+hide actions with a 75 percent hide rate. -/
def fbNarrowCase : List UserFeedback :=
  List.replicate 3 (mkFeedback "inbox-2" FeedbackAction.saved 80) ++
    List.replicate 9 (mkFeedback "inbox-2" FeedbackAction.hidden 90)

/-- Scenario B ledger of the spec: 20 events, 15 saves at the spread
scores, 5 hides at scores 72,75,80,85,90. -/
def fbScenarioB : List UserFeedback :=
  ([40, 45, 50, 55, 60, 65, 70, 75, 80, 85, 90, 95, 98, 99, 100].map
    (fun s => mkFeedback "inbox-b" FeedbackAction.saved s)) ++
  ([72, 75, 80, 85, 90].map
    (fun s => mkFeedback "inbox-b" FeedbackAction.hidden s))

/-- Regular (non all-contracts) inbox fixture with no cached policy. -/
def inboxRegular : Inbox :=
  { id := "inbox-2", name := "IT Services", prompt := "IT support contracts"
    createdAt := "2024-01-01T00:00:00.000Z", updatedAt := "2024-01-01T00:00:00.000Z"
    unreadCount := 0 }

/-- Cached learning policy fixture, distinct from the bootstrap policy. -/
def cachedPolicyC8 : InboxLearningMetrics :=
  { inboxId := "inbox-2", minRelevanceScore := 40, maxIrrelevanceScore := 95
    dynamicMinScore := 60
    thresholdAdjustments :=
      { expandedCount := 0, narrowedCount := 1
        lastAdjustment := "2024-01-05T00:00:00.000Z" }
    promptRefinements := [], pendingPromptUpdate := false
    totalFeedback := 12, savedContracts := 3, hiddenContracts := 9
    viewedContracts := 0, authorityBoosts := [], classificationBoosts := []
    confidenceLevel := 60, lastUpdated := "2024-01-05T00:00:00.000Z" }

/-- Inbox store fixture holding a regular inbox with a cached policy. -/
def storeC8 : List Inbox :=
  [{ inboxRegular with learningMetrics := some cachedPolicyC8 }]

/-- Fresh-install application state: the default all-contracts inbox
created by ensureDefaultInbox (inbox-storage.ts, lines 526-536), one
contract, and an empty feedback ledger. -/
def freshInstall : AppState :=
  { contracts := [contractA]
    inboxes :=
      [{ id := "inbox-all", name := "All Contracts"
         prompt := "Show me all relevant public sector contracts"
         createdAt := "2024-01-01T00:00:00.000Z"
         updatedAt := "2024-01-01T00:00:00.000Z"
         unreadCount := 0, isAllContractsInbox := true }]
    feedback := [] }

/-- Contract store fixture with two contracts of distinct ids. -/
def storeC9 : List Contract := [contractA, contractB]

/-- The analyzer reports the ledger length as totalFeedback. -/
theorem analyze_totalFeedback (inboxId : String) (fb : List UserFeedback)
    (now : String) :
    (analyzeFeedbackPatterns inboxId fb now).totalFeedback = fb.length := by
  by_cases h : fb.isEmpty
  · simp only [analyzeFeedbackPatterns, if_pos h]
    simp [List.isEmpty_iff] at h
    simp [h]
  · simp [analyzeFeedbackPatterns, h]

/-- Rounding the rational confidence formula gives the integer value
min 100 (5 n): the division by 20 followed by the multiplication by 100 is
exact. -/
theorem confidence_round (n : ℕ) :
    round (min 100 ((n : ℚ) / 20 * 100)) = min 100 (5 * (n : ℤ)) := by
  rw [show (n : ℚ) / 20 * 100 = ((5 * (n : ℤ) : ℤ) : ℚ) by push_cast; ring]
  rw [show (100 : ℚ) = ((100 : ℤ) : ℚ) by norm_num]
  rw [← Int.cast_min]
  exact round_intCast _

/-- The analyzer's stored confidence level equals min 100 (5 n) for a
ledger of n events. -/
theorem analyze_confidence (inboxId : String) (fb : List UserFeedback)
    (now : String) :
    (analyzeFeedbackPatterns inboxId fb now).confidenceLevel =
      min 100 (5 * (fb.length : ℤ)) := by
  by_cases h : fb.isEmpty
  · simp only [analyzeFeedbackPatterns, if_pos h]
    simp [List.isEmpty_iff] at h
    simp [h]
  · simp only [analyzeFeedbackPatterns, if_neg h]
    exact confidence_round fb.length

/-- The analyzer always emits an empty authority boost map. -/
theorem analyze_authorityBoosts (inboxId : String) (fb : List UserFeedback)
    (now : String) :
    (analyzeFeedbackPatterns inboxId fb now).authorityBoosts = [] := by
  by_cases h : fb.isEmpty <;> simp [analyzeFeedbackPatterns, h]

/-- The analyzer always emits an empty classification boost map. -/
theorem analyze_classificationBoosts (inboxId : String) (fb : List UserFeedback)
    (now : String) :
    (analyzeFeedbackPatterns inboxId fb now).classificationBoosts = [] := by
  by_cases h : fb.isEmpty <;> simp [analyzeFeedbackPatterns, h]

/-- Looking a key up in the empty boost map yields 0. -/
theorem lookupBoost_nil (key : String) : lookupBoost [] key = 0 := rfl

/-- With both boost maps empty, the boost stage leaves any result list
with scores inside [0,100] unchanged (the stage still clamps, which is
the identity on that range). -/
theorem applyLearnedBoosts_empty_maps (m : InboxLearningMetrics)
    (ha : m.authorityBoosts = []) (hc : m.classificationBoosts = [])
    (results : List SearchResult)
    (hb : ∀ r ∈ results, 0 ≤ r.matchScore ∧ r.matchScore ≤ 100) :
    applyLearnedBoosts results (some m) = results := by
  unfold applyLearnedBoosts
  dsimp only
  by_cases h1 : m.totalFeedback < 10
  · rw [if_pos h1]
  · rw [if_neg h1]
    by_cases h2 : m.confidenceLevel < 50
    · rw [if_pos h2]
    · rw [if_neg h2]
      have hmap : ∀ r ∈ results,
          (fun r : SearchResult =>
            let adjusted0 := r.matchScore
            let authorityBoost := lookupBoost m.authorityBoosts r.contract.authority
            let adjusted1 :=
              if authorityBoost ≠ 0 then adjusted0 + authorityBoost else adjusted0
            let classBoost :=
              lookupBoost m.classificationBoosts r.contract.buyerClassification
            let adjusted2 :=
              if classBoost ≠ 0 then adjusted1 + classBoost else adjusted1
            { r with matchScore := max 0 (min 100 adjusted2) }) r = r := by
        intro r hr
        simp only [ha, hc, lookupBoost_nil, ne_eq, not_true_eq_false, if_false,
          ite_self]
        have hs : max 0 (min 100 r.matchScore) = r.matchScore := by
          have := hb r hr
          omega
        simp only [hs]
      rw [List.map_congr_left hmap, List.map_id']

/-- A list stands in Forall₂ with its image under a map whenever the
relation holds between each element and its image. -/
theorem forall2_map_self {α : Type} (R : α → α → Prop) (f : α → α) :
    ∀ (l : List α), (∀ a ∈ l, R a (f a)) → List.Forall₂ R l (l.map f) := by
  intro l
  induction l with
  | nil => intro _; exact List.Forall₂.nil
  | cons a t ih =>
    intro h
    exact List.Forall₂.cons (h a (by simp)) (ih (fun b hb => h b (by simp [hb])))

/-- In a store whose records carry pairwise distinct ids, two members with
the same id are the same record. -/
theorem pairwise_mem_eq (store : List Contract)
    (huniq : store.Pairwise (fun a b => a.id ≠ b.id)) :
    ∀ c ∈ store, ∀ d ∈ store, c.id = d.id → c = d := by
  induction store with
  | nil => intro c hc; exact absurd hc (List.not_mem_nil c)
  | cons x t ih =>
    intro c hc d hd hcd
    rcases List.pairwise_cons.mp huniq with ⟨hx, ht⟩
    rcases List.mem_cons.mp hc with hc1 | hc2 <;>
      rcases List.mem_cons.mp hd with hd1 | hd2
    · rw [hc1, hd1]
    · exact absurd (by rw [← hc1, hcd]) (fun h => hx d hd2 h)
    · exact absurd (by rw [← hd1, ← hcd]) (fun h => hx c hc2 h)
    · exact ih ht c hc2 d hd2 hcd

/-- Updating the metadata entry of key X in place leaves the lookup of any
other key Y unchanged. -/
theorem find?_map_keyUpdate (X Y : String) (v : HiddenMeta) (hY : Y ≠ X) :
    ∀ (m : List (String × HiddenMeta)),
      (m.map (fun p => if p.1 = X then (X, v) else p)).find?
          (fun p => decide (p.1 = Y)) =
        m.find? (fun p => decide (p.1 = Y)) := by
  intro m
  induction m with
  | nil => rfl
  | cons p t ih =>
    by_cases hp : p.1 = X
    · simp only [List.map_cons, if_pos hp, List.find?_cons]
      have h1 : (decide ((X, v).1 = Y)) = false := by
        simp only [decide_eq_false_iff_not]
        exact fun h => hY (h.symm)
      have h2 : (decide (p.1 = Y)) = false := by
        simp only [decide_eq_false_iff_not]
        rw [hp]
        exact fun h => hY (h.symm)
      rw [h1, h2]
      exact ih
    · simp only [List.map_cons, if_neg hp, List.find?_cons]
      cases hpy : (decide (p.1 = Y)) <;> simp [ih]

/-- Appending a fresh metadata entry for key X leaves the lookup of any
other key Y unchanged. -/
theorem find?_append_new (X Y : String) (v : HiddenMeta) (hY : Y ≠ X) :
    ∀ (m : List (String × HiddenMeta)),
      ((m ++ [(X, v)]).find? (fun p => decide (p.1 = Y))) =
        m.find? (fun p => decide (p.1 = Y)) := by
  intro m
  induction m with
  | nil =>
    simp only [List.nil_append, List.find?]
    have h1 : (decide ((X, v).1 = Y)) = false := by
      simp only [decide_eq_false_iff_not]
      exact fun h => hY (h.symm)
    rw [h1]
  | cons p t ih =>
    simp only [List.cons_append, List.find?_cons]
    cases hpy : (decide (p.1 = Y)) <;> simp [ih]

/-- Writing the metadata entry of key X leaves the lookup of any other key
Y unchanged. -/
theorem find?_setMeta_ne (m : List (String × HiddenMeta)) (X Y : String)
    (v : HiddenMeta) (hY : Y ≠ X) :
    (setMeta m X v).find? (fun p => decide (p.1 = Y)) =
      m.find? (fun p => decide (p.1 = Y)) := by
  unfold setMeta
  by_cases hm : m.any (fun p => decide (p.1 = X))
  · rw [if_pos hm]
    exact find?_map_keyUpdate X Y v hY m
  · rw [if_neg hm]
    exact find?_append_new X Y v hY m

/-- The frame relation is reflexive. -/
theorem agreesOffInbox_refl (Y : String) (c : Contract) : agreesOffInbox Y c c := by
  unfold agreesOffInbox
  exact ⟨rfl, rfl, rfl, rfl, rfl, rfl, rfl, rfl, rfl, rfl, rfl, rfl, rfl, rfl,
    rfl, rfl, rfl, Iff.rfl, rfl⟩

/-- C1 counterexample: with an empty history and starting cutoff 100, the
controller returns 100, outside [30,70] — the under-10-events path returns
the starting value without clamping. -/
theorem c1_counterexample :
    ¬ (30 ≤ (calculateDynamicThreshold [] 100).threshold ∧
       (calculateDynamicThreshold [] 100).threshold ≤ 70) := by decide

/-- C1 (amended): the controller's result lies in [30,70] whenever the
history holds at least 10 events; with fewer events it returns the
starting cutoff unchanged, hence stays in [30,70] exactly when the
starting cutoff is. -/
theorem c1_range_amended (events : List UserFeedback) (cur : ℤ)
    (h : 10 ≤ events.length ∨ (30 ≤ cur ∧ cur ≤ 70)) :
    30 ≤ (calculateDynamicThreshold events cur).threshold ∧
      (calculateDynamicThreshold events cur).threshold ≤ 70 := by
  unfold calculateDynamicThreshold
  split
  · next hlt =>
    rcases h with h10 | hcur
    · omega
    · exact hcur
  · next hge =>
    dsimp only
    exact ⟨le_max_left _ _, max_le (by norm_num) (min_le_left _ _)⟩

/-- C1 witness: the amended range theorem applied to a concrete 12-event
history at starting cutoff 50. -/
theorem c1_range_amended_witness :
    30 ≤ (calculateDynamicThreshold fbNarrowCase 50).threshold ∧
      (calculateDynamicThreshold fbNarrowCase 50).threshold ≤ 70 :=
  c1_range_amended fbNarrowCase 50 (Or.inl (by decide))

/-- C2 counterexample: after the user override persists a live cutoff of
70, the next recompute stores 50 — the controller applied to the fixed
baseline — whereas the controller applied to the persisted live cutoff 70
returns 70. -/
theorem c2_counterexample :
    liveCutoff (handleGlobalThresholdChange [inboxRegular] "inbox-2" 70 "T1")
        "inbox-2" = some 70 ∧
    liveCutoffE (updateInboxLearning
        (handleGlobalThresholdChange [inboxRegular] "inbox-2" 70 "T1") "inbox-2"
        (Except.ok fbOneSave) "T2") "inbox-2" = some 50 ∧
    (calculateDynamicThreshold fbOneSave 70).threshold = 70 ∧
    (50 : ℤ) ≠ 70 := by decide

/-- C2 (amended): a user override is persisted into
learningMetrics.dynamicMinScore, but every recompute applies the Dynamic
Threshold Controller to the fixed baseline 50, regardless of the override
value: the cutoff is re-derived from 50 on each recompute, not evolved
from the collection's live cutoff. -/
theorem c2_fixed_baseline_amended (v : ℤ) (fb : List UserFeedback)
    (now1 now2 : String) (hfb : fb ≠ []) :
    liveCutoff (handleGlobalThresholdChange [inboxRegular] "inbox-2" v now1)
        "inbox-2" = some v ∧
    liveCutoffE (updateInboxLearning
        (handleGlobalThresholdChange [inboxRegular] "inbox-2" v now1) "inbox-2"
        (Except.ok fb) now2) "inbox-2"
      = some ((calculateDynamicThreshold fb 50).threshold) := by
  cases fb with
  | nil => exact absurd rfl hfb
  | cons f t => exact ⟨rfl, rfl⟩

/-- C2 witness: the amended theorem applied to override value 65 and a
concrete six-event ledger. -/
theorem c2_fixed_baseline_amended_witness :
    liveCutoff (handleGlobalThresholdChange [inboxRegular] "inbox-2" 65 "T1")
        "inbox-2" = some 65 ∧
    liveCutoffE (updateInboxLearning
        (handleGlobalThresholdChange [inboxRegular] "inbox-2" 65 "T1") "inbox-2"
        (Except.ok fbSixSaves) "T2") "inbox-2"
      = some ((calculateDynamicThreshold fbSixSaves 50).threshold) :=
  c2_fixed_baseline_amended 65 fbSixSaves "T1" "T2" (by decide)

/-- C3 counterexample: recomputing the analyzer on the same (empty) ledger
at two different clock readings yields policies that are not identical —
the lastUpdated and lastAdjustment fields record the clock. -/
theorem c3_counterexample :
    analyzeFeedbackPatterns "inbox-2" [] "2024-01-01T00:00:00.000Z" ≠
      analyzeFeedbackPatterns "inbox-2" [] "2024-01-02T00:00:00.000Z" := by decide

/-- C3 (amended): the policy is a deterministic function of the ledger and
the clock reading, and every field other than the two embedded timestamps
depends on the ledger alone: recomputing on an unchanged ledger yields
policies identical outside lastUpdated and
thresholdAdjustments.lastAdjustment. -/
theorem c3_deterministic_amended (inboxId : String) (fb : List UserFeedback)
    (now1 now2 : String) :
    policyTimeFreePart (analyzeFeedbackPatterns inboxId fb now1) =
      policyTimeFreePart (analyzeFeedbackPatterns inboxId fb now2) := by
  by_cases h : fb.isEmpty <;>
    simp [analyzeFeedbackPatterns, policyTimeFreePart, h]

/-- C4 counterexample: a ledger of exactly 5 events gives confidence 25,
below the 30 gate, so the threshold stage passes a result whose score 20
lies below the derived minRelevanceScore 50 instead of dropping it; and at
10 events the boost stage is not a pass-through on an out-of-range score
(105 is clamped to 100). -/
theorem c4_counterexample :
    (applyLearnedThresholds [resultAt 20]
        (some (analyzeFeedbackPatterns "inbox-2" fbFiveSaves "T")) = [resultAt 20] ∧
      (resultAt 20).matchScore <
        (analyzeFeedbackPatterns "inbox-2" fbFiveSaves "T").minRelevanceScore ∧
      fbFiveSaves.length = 5) ∧
    applyLearnedBoosts [resultAt 105]
        (some (analyzeFeedbackPatterns "inbox-2" fbTenSaves "T")) ≠ [resultAt 105] := by
  have h1 : (analyzeFeedbackPatterns "inbox-2" fbFiveSaves "T").totalFeedback = 5 := by
    rw [analyze_totalFeedback]; decide
  have h2 : (analyzeFeedbackPatterns "inbox-2" fbFiveSaves "T").confidenceLevel = 25 := by
    rw [analyze_confidence]; decide
  have h3 : (analyzeFeedbackPatterns "inbox-2" fbTenSaves "T").totalFeedback = 10 := by
    rw [analyze_totalFeedback]; decide
  have h4 : (analyzeFeedbackPatterns "inbox-2" fbTenSaves "T").confidenceLevel = 50 := by
    rw [analyze_confidence]; decide
  refine ⟨⟨?_, by decide, by decide⟩, ?_⟩
  · unfold applyLearnedThresholds
    dsimp only
    rw [h1, h2]
    norm_num
  · unfold applyLearnedBoosts
    dsimp only
    rw [h3, h4]
    norm_num
    decide

/-- C4 (amended): for every ledger of 6 to 19 events, the threshold stage
of the pipeline actually filters — it keeps exactly the results whose
score is neither below minRelevanceScore nor above maxIrrelevanceScore of
the analyzer-derived policy — and the boost stage leaves every result list
whose scores lie in [0,100] (as all pipeline scores do) unchanged. -/
theorem c4_low_confidence_amended (inboxId : String) (fb : List UserFeedback)
    (now : String) (h6 : 6 ≤ fb.length) (h19 : fb.length ≤ 19) :
    (∀ results, applyLearnedThresholds results
        (some (analyzeFeedbackPatterns inboxId fb now)) =
      results.filter (fun r =>
        decide (¬ (r.matchScore <
            (analyzeFeedbackPatterns inboxId fb now).minRelevanceScore) ∧
          ¬ ((analyzeFeedbackPatterns inboxId fb now).maxIrrelevanceScore <
            r.matchScore)))) ∧
    (∀ results, (∀ r ∈ results, 0 ≤ r.matchScore ∧ r.matchScore ≤ 100) →
      applyLearnedBoosts results
        (some (analyzeFeedbackPatterns inboxId fb now)) = results) := by
  constructor
  · intro results
    unfold applyLearnedThresholds
    dsimp only
    rw [if_neg (by rw [analyze_totalFeedback]; omega),
        if_neg (by rw [analyze_confidence]; omega)]
  · intro results hbound
    exact applyLearnedBoosts_empty_maps _ (analyze_authorityBoosts _ _ _)
      (analyze_classificationBoosts _ _ _) results hbound

/-- C4 witness: at a six-event ledger the threshold stage drops the result
at score 20 (below the derived floor 50) and keeps the one at 55, and the
boost stage leaves an in-range result unchanged. -/
theorem c4_low_confidence_amended_witness :
    applyLearnedThresholds [resultAt 20, resultAt 55]
        (some (analyzeFeedbackPatterns "inbox-2" fbSixSaves "T")) = [resultAt 55] ∧
    applyLearnedBoosts [resultAt 55]
        (some (analyzeFeedbackPatterns "inbox-2" fbSixSaves "T")) = [resultAt 55] := by
  have h := c4_low_confidence_amended "inbox-2" fbSixSaves "T" (by decide) (by decide)
  refine ⟨?_, h.2 [resultAt 55] (by decide)⟩
  rw [h.1 [resultAt 20, resultAt 55]]
  decide

/-- C5: on a fresh install, hiding a contract in the distinguished
all-contracts inbox records feedback and writes a learning policy onto
that inbox — its cached learningMetrics change from absent to present —
contradicting the invariant that the all-contracts collection never
accepts a feedback-driven policy update. -/
theorem c5_feedback_updates_all_contracts_policy :
    (getInboxById freshInstall.inboxes "inbox-all").map
        (fun i => i.learningMetrics) = some none ∧
    (getInboxById freshInstall.inboxes "inbox-all").map
        (fun i => i.isAllContractsInbox) = some true ∧
    (getInboxById (hideContractOp freshInstall "c-a" "inbox-all" 100 none "fb-1"
        "T1").inboxes "inbox-all").map (fun i => i.learningMetrics) ≠ some none ∧
    ((getInboxById (hideContractOp freshInstall "c-a" "inbox-all" 100 none "fb-1"
        "T1").inboxes "inbox-all").bind (fun i => i.learningMetrics)).map
        (fun m => m.totalFeedback) = some 1 := by decide

/-- C6: with at least 10 feedback events and a cutoff in its documented
operating range [30,70], the controller returns exactly what the
reference expand/narrow rule set over the most recent 20 events
prescribes, with the narrow result overwriting the expand result when
both conditions hold. -/
theorem c6_controller_reference_rules (events : List UserFeedback) (cur : ℤ)
    (hlen : 10 ≤ events.length) (hlo : 30 ≤ cur) (hhi : cur ≤ 70) :
    (calculateDynamicThreshold events cur).threshold = refThreshold events cur := by
  unfold calculateDynamicThreshold refThreshold
  rw [if_neg (by omega)]
  dsimp only
  split_ifs <;> omega

/-- C6 witness: the rule conformance theorem applied to a 12-event history
with a 75 percent hide rate and cutoff 50 (both sides give 60). -/
theorem c6_controller_reference_rules_witness :
    (calculateDynamicThreshold fbNarrowCase 50).threshold =
      refThreshold fbNarrowCase 50 :=
  c6_controller_reference_rules fbNarrowCase 50 (by decide) (by decide) (by decide)

/-- C7: for every non-empty ledger the analyzer sets minRelevanceScore to
max 0 (lowest saved score - 10) when saves exist and 0 otherwise,
maxIrrelevanceScore to min 100 (highest hidden score + 5) when hides
exist and 100 otherwise, and confidenceLevel to
min 100 (totalFeedback / 20 * 100); on the 20-event Scenario B ledger the
derived policy has maxIrrelevanceScore 95, minRelevanceScore 30 and
confidenceLevel 100. -/
theorem c7_band_and_confidence :
    (∀ (inboxId : String) (fb : List UserFeedback) (now : String), fb ≠ [] →
      ((analyzeFeedbackPatterns inboxId fb now).minRelevanceScore =
          match lowestSavedScore fb with
          | none => 0
          | some s => max 0 (s - 10)) ∧
      ((analyzeFeedbackPatterns inboxId fb now).maxIrrelevanceScore =
          match highestHiddenScore fb with
          | none => 100
          | some s => min 100 (s + 5)) ∧
      (((analyzeFeedbackPatterns inboxId fb now).confidenceLevel : ℚ) =
          min 100 ((fb.length : ℚ) / 20 * 100))) ∧
    ((analyzeFeedbackPatterns "inbox-b" fbScenarioB "T").maxIrrelevanceScore = 95 ∧
     (analyzeFeedbackPatterns "inbox-b" fbScenarioB "T").minRelevanceScore = 30 ∧
     (analyzeFeedbackPatterns "inbox-b" fbScenarioB "T").confidenceLevel = 100) := by
  constructor
  · intro inboxId fb now hfb
    have hne : fb.isEmpty = false := by
      cases fb with
      | nil => exact absurd rfl hfb
      | cons f t => rfl
    refine ⟨?_, ?_, ?_⟩
    · unfold analyzeFeedbackPatterns lowestSavedScore
      rw [if_neg (by simp [hne])]
      dsimp only
      cases hs : (List.filter (fun f => decide (f.action = FeedbackAction.saved)) fb).map
          (fun f => f.matchScore) with
      | nil => simp [List.min?]
      | cons s rest => simp [List.min?]
    · unfold analyzeFeedbackPatterns highestHiddenScore
      rw [if_neg (by simp [hne])]
      dsimp only
      cases hs : (List.filter (fun f => decide (f.action = FeedbackAction.hidden)) fb).map
          (fun f => f.matchScore) with
      | nil => simp [List.max?]
      | cons s rest => simp [List.max?]
    · rw [analyze_confidence,
        show ((fb.length : ℚ)) / 20 * 100 = ((5 * (fb.length : ℤ) : ℤ) : ℚ) by
          push_cast; ring,
        show (100 : ℚ) = ((100 : ℤ) : ℚ) by norm_num, ← Int.cast_min]
  · refine ⟨by decide, by decide, ?_⟩
    rw [analyze_confidence]; decide

/-- C7 witness: the general band formulas applied to the Scenario B
ledger, evaluated to the concrete spec values 30 and 95. -/
theorem c7_band_and_confidence_witness :
    (analyzeFeedbackPatterns "inbox-b" fbScenarioB "T2").minRelevanceScore = 30 ∧
    (analyzeFeedbackPatterns "inbox-b" fbScenarioB "T2").maxIrrelevanceScore = 95 := by
  have h := c7_band_and_confidence.1 "inbox-b" fbScenarioB "T2" (by decide)
  exact ⟨by rw [h.1]; decide, by rw [h.2.1]; decide⟩

/-- C8: a failed ledger read does not leave the cached policy untouched:
the read error is swallowed into an empty ledger, the analyzer returns the
bootstrap policy without raising, and updateInboxLearning writes that
bootstrap policy over the previously cached one. -/
theorem c8_read_failure_overwrites_policy :
    storedPolicyE (Except.ok storeC8) "inbox-2" = some (some cachedPolicyC8) ∧
    storedPolicyE (updateInboxLearning storeC8 "inbox-2"
        (Except.error "ledger read failed") "T9") "inbox-2"
      = some (some (analyzeFeedbackPatterns "inbox-2" [] "T9")) ∧
    some (analyzeFeedbackPatterns "inbox-2" [] "T9") ≠ some cachedPolicyC8 := by decide

/-- C9: hiding a contract in inbox X changes nothing about any contract in
the store beyond that contract's hidden state for X: every store entry
keeps its identity and all non-hiding fields, its membership of any other
inbox Y in hiddenInInboxes, and its hiddenMetadata entry for Y. -/
theorem c9_hide_frame (store : List Contract) (id X Y : String)
    (reason : Option String) (now : String)
    (huniq : store.Pairwise (fun a b => a.id ≠ b.id)) (hY : Y ≠ X) :
    List.Forall₂ (agreesOffInbox Y) store
      (markContractAsHidden store id X reason now) := by
  unfold markContractAsHidden
  cases hfind : getContractById store id with
  | none =>
    exact List.forall₂_same.mpr (fun c _ => agreesOffInbox_refl Y c)
  | some c0 =>
    have hfind' : store.find? (fun c => decide (c.id = id)) = some c0 := hfind
    have hmem : c0 ∈ store := List.mem_of_find?_eq_some hfind'
    have hid0 : c0.id = id := by
      have hp := List.find?_some hfind'
      simpa using hp
    dsimp only
    unfold putContract
    rw [if_pos (List.any_eq_true.mpr ⟨c0, hmem, by simp⟩)]
    apply forall2_map_self
    intro a ha
    by_cases hida : a.id = (({ c0 with
        hiddenInInboxes :=
          if X ∈ c0.hiddenInInboxes then c0.hiddenInInboxes
          else c0.hiddenInInboxes ++ [X]
        hiddenMetadata := some (setMeta (c0.hiddenMetadata.getD []) X
          { hiddenBy := none, hiddenDate := now, hiddenReason := reason }) } :
        Contract)).id
    · have hac : a = c0 := pairwise_mem_eq store huniq a ha c0 hmem hida
      rw [hac, if_pos rfl]
      unfold agreesOffInbox
      refine ⟨rfl, rfl, rfl, rfl, rfl, rfl, rfl, rfl, rfl, rfl, rfl, rfl, rfl,
        rfl, rfl, rfl, rfl, ?_, ?_⟩
      · show Y ∈ (if X ∈ c0.hiddenInInboxes then c0.hiddenInInboxes
            else c0.hiddenInInboxes ++ [X]) ↔ Y ∈ c0.hiddenInInboxes
        by_cases hX : X ∈ c0.hiddenInInboxes
        · rw [if_pos hX]
        · rw [if_neg hX]
          simp [List.mem_append, hY]
      · show hiddenMetaFor _ Y = hiddenMetaFor c0 Y
        unfold hiddenMetaFor
        dsimp only
        rw [Option.getD_some, find?_setMeta_ne _ X Y _ hY]
    · rw [if_neg hida]
      exact agreesOffInbox_refl Y a

/-- C9 witness: the frame theorem applied to a concrete two-contract store,
hiding contract "c-a" in inbox "x" while observing inbox "y". -/
theorem c9_hide_frame_witness :
    List.Forall₂ (agreesOffInbox "y") storeC9
      (markContractAsHidden storeC9 "c-a" "x" none "T1") :=
  c9_hide_frame storeC9 "c-a" "x" "y" none "T1" (by decide) (by decide)

/-- C10 counterexample: at the full-confidence 20-event ledger the boost
stage does not return every score unchanged — a result at score 105 comes
back clamped to 100. -/
theorem c10_counterexample :
    (analyzeFeedbackPatterns "inbox-b" fbScenarioB "T").totalFeedback = 20 ∧
    applyLearnedBoosts [resultAt 105]
        (some (analyzeFeedbackPatterns "inbox-b" fbScenarioB "T")) ≠ [resultAt 105] := by
  have h3 : (analyzeFeedbackPatterns "inbox-b" fbScenarioB "T").totalFeedback = 20 := by
    rw [analyze_totalFeedback]; decide
  have h4 : (analyzeFeedbackPatterns "inbox-b" fbScenarioB "T").confidenceLevel = 100 := by
    rw [analyze_confidence]; decide
  refine ⟨h3, ?_⟩
  unfold applyLearnedBoosts
  dsimp only
  rw [h3, h4]
  norm_num
  decide

/-- C10 (amended): every analyzer-derived policy has empty authority and
classification boost maps, and consequently applyLearnedBoosts returns
every result list whose scores lie within [0,100] — as every score the
search pipeline produces does — unchanged; out-of-range scores are only
clamped to [0,100] by the stage's final clamp. -/
theorem c10_boosts_amended (inboxId : String) (fb : List UserFeedback)
    (now : String) :
    (analyzeFeedbackPatterns inboxId fb now).authorityBoosts = [] ∧
    (analyzeFeedbackPatterns inboxId fb now).classificationBoosts = [] ∧
    ∀ results, (∀ r ∈ results, 0 ≤ r.matchScore ∧ r.matchScore ≤ 100) →
      applyLearnedBoosts results
        (some (analyzeFeedbackPatterns inboxId fb now)) = results :=
  ⟨analyze_authorityBoosts inboxId fb now,
   analyze_classificationBoosts inboxId fb now,
   fun results hb => applyLearnedBoosts_empty_maps _
     (analyze_authorityBoosts inboxId fb now)
     (analyze_classificationBoosts inboxId fb now) results hb⟩

/-- C10 witness: at the 20-event Scenario B policy the boost maps are empty
and an in-range result list passes through unchanged. -/
theorem c10_boosts_amended_witness :
    (analyzeFeedbackPatterns "inbox-b" fbScenarioB "T").authorityBoosts = [] ∧
    applyLearnedBoosts [resultAt 50]
        (some (analyzeFeedbackPatterns "inbox-b" fbScenarioB "T")) = [resultAt 50] :=
  ⟨(c10_boosts_amended "inbox-b" fbScenarioB "T").1,
   (c10_boosts_amended "inbox-b" fbScenarioB "T").2.2 [resultAt 50] (by decide)⟩
